import Mathlib

/-
Shallow embedding of the memorandum validator (src/validator.py).
Paragraphs are modelled as lists of strings; section margins as the EMU
integers held by the document, converted to inches in a model of binary64
arithmetic (every double is represented by its exact rational value).
Each check is translated as a pure function from the paragraph sequence
(and margin metadata) to the list of issues the Python method appends, in
order.  The regular expressions of the source are implemented
character-by-character with the same matching semantics.
-/

namespace MemoValidator

/-- Severity levels of a validation issue, mirroring the Severity enum. -/
inductive Severity where
  | CRITICAL
  | WARNING
  | INFO
deriving DecidableEq, Repr

/-- One issue produced by a validation check (dataclass ValidationIssue). -/
structure ValidationIssue where
  severity : Severity
  section_ : String
  message : String
  paragraph_number : Option Nat
deriving DecidableEq, Repr

/-- Margin metadata of one document section, as python-docx Length values in
EMU (integer English Metric Units, 914400 to the inch); a missing value
models a margin attribute that is absent (falsy) in the document. -/
structure Margins where
  top : Option Int
  bottom : Option Int
  left : Option Int
  right : Option Int
deriving DecidableEq, Repr

/-- A parsed document: ordered paragraph texts plus the sections list. -/
structure Doc where
  paragraphs : List String
  sections_list : List Margins
deriving Repr

/-- Outcome of parsing the file, mirroring the try/except of validate_file. -/
inductive ParseResult where
  | success (doc : Doc)
  | fileNotFound
  | error (msg : String)

/-- Whitespace characters of the regex class backslash-s (ASCII range),
which is also the set stripped by Python str.strip. -/
def pySpace (c : Char) : Bool :=
  c == ' ' || c == '\t' || c == '\n' || c == '\r' || c == Char.ofNat 11 || c == Char.ofNat 12

def stripList (cs : List Char) : List Char :=
  ((cs.dropWhile pySpace).reverse.dropWhile pySpace).reverse

/-- Python str.strip. -/
def strip (s : String) : String :=
  String.mk (stripList s.toList)

/-- Case-insensitive prefix test (first list is the needle). -/
def prefixCI : List Char → List Char → Bool
  | [], _ => true
  | _ :: _, [] => false
  | a :: as, b :: bs => (a.toLower == b.toLower) && prefixCI as bs

def containsCIList (needle : List Char) : List Char → Bool
  | [] => needle.isEmpty
  | c :: rest => prefixCI needle (c :: rest) || containsCIList needle rest

/-- Case-insensitive substring search: re.search of a literal pattern with
re.IGNORECASE. -/
def containsCI (needle hay : String) : Bool :=
  containsCIList needle.toList hay.toList

def findFrom (m : String → Bool) : List String → Nat → Option Nat
  | [], _ => none
  | p :: rest, i => if m p then some i else findFrom m rest (i + 1)

/-- MemorandumValidator._find_paragraph_index: index of the first paragraph at
or after start whose (raw) text matches; none models the -1 sentinel. -/
def find_paragraph_index (m : String → Bool) (paras : List String) (start : Nat) : Option Nat :=
  findFrom m (paras.drop start) start

/-- MemorandumValidator._get_text_by_index: stripped text, or "" out of range. -/
def get_text_by_index (paras : List String) (index : Nat) : String :=
  match paras[index]? with
  | some t => strip t
  | none => ""

def digitVal (cs : List Char) : Nat :=
  cs.foldl (fun a c => a * 10 + (c.toNat - 48)) 0

def dropSpaces (cs : List Char) : List Char := cs.dropWhile pySpace

/-- Month alternation of the date pattern, in source order, with month index. -/
def month_names : List (String × Nat) :=
  [("January", 1), ("February", 2), ("March", 3), ("April", 4), ("May", 5), ("June", 6),
   ("July", 7), ("August", 8), ("September", 9), ("October", 10), ("November", 11),
   ("December", 12)]

def matchMonth : List (String × Nat) → List Char → Option (Nat × List Char)
  | [], _ => none
  | (name, m) :: rest, cs =>
    if name.toList.isPrefixOf cs then some (m, cs.drop name.length) else matchMonth rest cs

def fourDigits : List Char → Option (Nat × List Char)
  | a :: b :: c :: d :: rest =>
    if a.isDigit && b.isDigit && c.isDigit && d.isDigit then
      some (digitVal [a, b, c, d], rest)
    else none
  | _ => none

/-- Continuation of the date regex after the day digits: one-or-more spaces,
a month name, one-or-more spaces, exactly four digits, optional spaces, end. -/
def dateTail (day : Nat) (cs : List Char) : Option (Nat × Nat × Nat) :=
  match cs with
  | [] => none
  | c :: rest =>
    if pySpace c then
      match matchMonth month_names (dropSpaces rest) with
      | none => none
      | some (m, cs2) =>
        match cs2 with
        | [] => none
        | c2 :: rest2 =>
          if pySpace c2 then
            match fourDigits (dropSpaces rest2) with
            | none => none
            | some (y, cs4) => if dropSpaces cs4 = [] then some (day, m, y) else none
          else none
    else none

/-- Full match of the anchored date pattern of _validate_date against a
(stripped) line, returning day, month index and year; the one-or-two digit
day is greedy with backtracking, as in the regex. -/
def dateMatch : List Char → Option (Nat × Nat × Nat)
  | [] => none
  | a :: rest =>
    if a.isDigit then
      match rest with
      | [] => none
      | b :: rest2 =>
        if b.isDigit then
          match dateTail (digitVal [a, b]) rest2 with
          | some r => some r
          | none => dateTail (digitVal [a]) rest
        else dateTail (digitVal [a]) rest
    else none

def is_leap (y : Nat) : Bool :=
  y % 4 == 0 && (y % 100 != 0 || y % 400 == 0)

def days_in_month (m y : Nat) : Nat :=
  if m == 2 then (if is_leap y then 29 else 28)
  else if m == 4 || m == 6 || m == 9 || m == 11 then 30
  else 31

/-- Whether datetime.strptime with format day, full month, year accepts the
matched numbers as a real calendar date (year at least 1, day in range). -/
def strptime_valid (d m y : Nat) : Bool :=
  1 ≤ y && 1 ≤ d && d ≤ days_in_month m y

/-- Loop body of _validate_date over the first (at most five) paragraphs;
i is the zero-based index of the head paragraph. -/
def dateLoop : List String → Nat → List ValidationIssue
  | [], _ =>
    [⟨Severity.CRITICAL, "Date",
      "Missing or incorrectly formatted date. Expected format: \x27DD Month YYYY\x27 (e.g., \x2712 March 2025\x27)",
      none⟩]
  | p :: rest, i =>
    let text := strip p
    match dateMatch text.toList with
    | some (d, m, y) =>
      if strptime_valid d m y then []
      else
        [⟨Severity.WARNING, "Date",
          "Date format appears correct but may be invalid: " ++ text, some (i + 1)⟩]
    | none => dateLoop rest (i + 1)

/-- MemorandumValidator._validate_date. -/
def validate_date (paras : List String) : List ValidationIssue :=
  if paras.isEmpty then
    [⟨Severity.CRITICAL, "Date", "Document is empty", none⟩]
  else
    dateLoop (paras.take 5) 0

/-- MemorandumValidator._validate_memorandum_for. -/
def validate_memorandum_for (paras : List String) : List ValidationIssue :=
  match find_paragraph_index (containsCI "MEMORANDUM FOR") paras 0 with
  | none => [⟨Severity.CRITICAL, "Header", "Missing \x27MEMORANDUM FOR\x27 line", none⟩]
  | some idx =>
    let text := get_text_by_index paras idx
    if !(text.startsWith "MEMORANDUM FOR") then
      [⟨Severity.WARNING, "Header",
        "\x27MEMORANDUM FOR\x27 should be at the start of the line", some (idx + 1)⟩]
    else []

/-- Tail of the anchored content regex after the anchor: one-or-more
whitespace then at least one any-char (anything but a newline), with
the backtracking of the regex engine. -/
def wsDotAux : List Char → Bool
  | [] => false
  | c :: rest => c != '\n' || (pySpace c && wsDotAux rest)

def wsDot : List Char → Bool
  | [] => false
  | c :: rest => pySpace c && wsDotAux rest

/-- re.match of anchor followed by one-or-more whitespace and at least one
further character, anchored at the start (case-sensitive). -/
def matchAnchorContent (anchor : String) (text : String) : Bool :=
  anchor.toList.isPrefixOf text.toList && wsDot (text.toList.drop anchor.length)

/-- MemorandumValidator._validate_from_line. -/
def validate_from_line (paras : List String) : List ValidationIssue :=
  match find_paragraph_index (containsCI "FROM:") paras 0 with
  | none => [⟨Severity.CRITICAL, "Header", "Missing \x27FROM:\x27 line", none⟩]
  | some idx =>
    let text := get_text_by_index paras idx
    if !(matchAnchorContent "FROM:" text) then
      [⟨Severity.WARNING, "Header",
        "FROM: line should be followed by sender information", some (idx + 1)⟩]
    else []

/-- MemorandumValidator._validate_subject_line. -/
def validate_subject_line (paras : List String) : List ValidationIssue :=
  match find_paragraph_index (containsCI "SUBJECT:") paras 0 with
  | none => [⟨Severity.CRITICAL, "Header", "Missing \x27SUBJECT:\x27 line", none⟩]
  | some idx =>
    let text := get_text_by_index paras idx
    if !(matchAnchorContent "SUBJECT:" text) then
      [⟨Severity.WARNING, "Header",
        "SUBJECT: line should be followed by subject text", some (idx + 1)⟩]
    else []

/-- The numbered-paragraph regex of _validate_body_paragraphs applied to a
(stripped) line: one-or-more digits, a dot, one-or-more whitespace, anchored
at the start; returns the parsed integer on a match. -/
def numHead (cs : List Char) : Option Nat :=
  let digits := cs.takeWhile Char.isDigit
  if digits.isEmpty then none
  else
    match cs.drop digits.length with
    | '.' :: d :: _ => if pySpace d then some (digitVal digits) else none
    | _ => none

/-- Collect (parsed number, zero-based index) for every candidate paragraph,
in document order; i is the index of the head paragraph. -/
def collectNumbered : List String → Nat → List (Nat × Nat)
  | [], _ => []
  | p :: rest, i =>
    match numHead (strip p).toList with
    | some n => (n, i) :: collectNumbered rest (i + 1)
    | none => collectNumbered rest (i + 1)

/-- Candidates found in the half-open index interval from lo to hi. -/
def found_paragraphs (paras : List String) (lo hi : Nat) : List (Nat × Nat) :=
  collectNumbered ((paras.take hi).drop lo) lo

/-- The WARNING issue of the body-numbering walk for expected e, found n at
zero-based paragraph index idx. -/
def numbering_warning (e n idx : Nat) : ValidationIssue :=
  ⟨Severity.WARNING, "Body",
   "Paragraph numbering issue: Expected " ++ toString e ++ ", found " ++ toString n,
   some (idx + 1)⟩

/-- Sequential-numbering walk of _validate_body_paragraphs: the expected
value is reset to the found number plus one after every candidate. -/
def numberingWalk : List (Nat × Nat) → Nat → List ValidationIssue
  | [], _ => []
  | (n, idx) :: rest, expected =>
    (if n ≠ expected then [numbering_warning expected n idx] else []) ++
      numberingWalk rest (n + 1)

/-- Body of _validate_body_paragraphs once the subject index and the
signature boundary are known. -/
def body_check_core (paras : List String) (subject_idx sig_idx : Nat) : List ValidationIssue :=
  let fp := found_paragraphs paras (subject_idx + 1) sig_idx
  if fp.isEmpty then
    [⟨Severity.CRITICAL, "Body",
      "No numbered paragraphs found. Body paragraphs should be numbered (1., 2., 3., etc.)",
      none⟩]
  else
    numberingWalk fp 1 ++
      [⟨Severity.INFO, "Body",
        "Found " ++ toString fp.length ++ " numbered paragraph(s)", none⟩]

/-- MemorandumValidator._validate_body_paragraphs. -/
def validate_body_paragraphs (paras : List String) : List ValidationIssue :=
  match find_paragraph_index (containsCI "SUBJECT:") paras 0 with
  | none => []
  | some subject_idx =>
    let sig_idx :=
      (find_paragraph_index (containsCI "//SIGNED//") paras subject_idx).getD paras.length
    body_check_core paras subject_idx sig_idx

/-- Rank alternation of the signature-name pattern, in source order. -/
def rank_names : List String :=
  ["Colonel", "Lt Col", "Major", "Captain", "Lieutenant", "General", "Brig Gen",
   "Maj Gen", "Lt Gen", "Col", "Capt", "Lt", "Gen"]

def branchOK (cs : List Char) : Bool :=
  "USAF".toList.isPrefixOf cs || "USSF".toList.isPrefixOf cs

/-- Part of the signature-name pattern after the first comma: optional
whitespace, a rank, a comma, optional whitespace, a branch. -/
def rankBranchAfterComma (cs : List Char) : Bool :=
  let cs1 := dropSpaces cs
  rank_names.any (fun r =>
    r.toList.isPrefixOf cs1 &&
      (match cs1.drop r.length with
       | ',' :: rest => branchOK (dropSpaces rest)
       | _ => false))

/-- After at least one any-char has been consumed: either close the any-char
run at a comma and match rank and branch, or keep consuming non-newline
characters (the backtracking of the regex engine as an alternation). -/
def dotPlusComma : List Char → Bool
  | [] => false
  | ',' :: rest => rankBranchAfterComma rest || dotPlusComma rest
  | c :: rest => c != '\n' && dotPlusComma rest

def sigAt : List Char → Bool
  | [] => false
  | c :: rest => c != '\n' && dotPlusComma rest

/-- re.search of the signature-name pattern: try a match at every position. -/
def sigSearch : List Char → Bool
  | [] => false
  | c :: rest => sigAt (c :: rest) || sigSearch rest

/-- MemorandumValidator._validate_signature_block. -/
def validate_signature_block (paras : List String) : List ValidationIssue :=
  match find_paragraph_index (containsCI "//SIGNED//") paras 0 with
  | none =>
    [⟨Severity.CRITICAL, "Signature",
      "Missing \x27//SIGNED//\x27 marker in signature block", none⟩]
  | some sig_idx =>
    let window := (paras.take (min (sig_idx + 5) paras.length)).drop (sig_idx + 1)
    if window.any (fun p => sigSearch (strip p).toList) then []
    else
      [⟨Severity.WARNING, "Signature",
        "Signature block may be incomplete. Expected format: \x27Name, Rank, Branch\x27",
        some (sig_idx + 1)⟩]

/-- re.match of the tab pattern against a (stripped) line: the literal Tab,
one-or-more whitespace, one-or-more digits, anchored at the start. -/
def tabMatch (cs : List Char) : Bool :=
  "Tab".toList.isPrefixOf cs &&
    (match cs.drop 3 with
     | c :: rest =>
       pySpace c &&
         (match dropSpaces rest with
          | d :: _ => d.isDigit
          | [] => false)
     | [] => false)

/-- Forward scan of _validate_attachments over the paragraphs after the
anchor: collect tab lines, skip empty lines, stop at the first non-empty
non-tab line. -/
def attachScan : List String → List String
  | [] => []
  | p :: rest =>
    let text := strip p
    if tabMatch text.toList then text :: attachScan rest
    else if text != "" then []
    else attachScan rest

/-- Anchor pattern of _validate_attachments: the literal Attachment with an
optional s and a colon, searched case-insensitively. -/
def attachAnchor (t : String) : Bool :=
  containsCI "Attachment:" t || containsCI "Attachments:" t

/-- MemorandumValidator._validate_attachments. -/
def validate_attachments (paras : List String) : List ValidationIssue :=
  match find_paragraph_index attachAnchor paras 0 with
  | none =>
    [⟨Severity.INFO, "Attachments", "No attachments section found (optional)", none⟩]
  | some attach_idx =>
    let found_tabs := attachScan (paras.drop (attach_idx + 1))
    if found_tabs.isEmpty then
      [⟨Severity.WARNING, "Attachments",
        "Attachments section found but no tabs listed", some (attach_idx + 1)⟩]
    else
      [⟨Severity.INFO, "Attachments",
        "Found " ++ toString found_tabs.length ++ " attachment tab(s)", none⟩]

/-
The margin comparison of the source runs in Python double precision:
Length.inches divides the EMU integer by 914400.0, and the check compares
abs(margin - 1.0) > 0.1 on doubles.  The model below represents every
double by its exact rational value and implements IEEE-754 binary64
round-to-nearest-even with an unbounded exponent range, which coincides
with binary64 on the magnitudes that occur here (no overflow, underflow or
subnormals within many orders of magnitude of an inch).
-/

/-- Number of binary digits of a nonnegative integer. -/
def bitlen (n : ℤ) : ℕ :=
  if h : n ≤ 0 then 0
  else bitlen (n / 2) + 1
termination_by n.toNat
decreasing_by
  simp only [not_le] at h
  omega

/-- Floor of the base-two logarithm of a positive rational: the unique e
with two to the e at most q, q below two to the succ e (a candidate from
the integer part is corrected by at most one step each way). -/
def floorLog2 (q : ℚ) : ℤ :=
  let e0 : ℤ :=
    if 1 ≤ q then (bitlen ⌊q⌋ : ℤ) - 1
    else -(bitlen ⌊q⁻¹⌋ : ℤ)
  let e1 : ℤ := if (2 : ℚ) ^ (e0 + 1) ≤ q then e0 + 1 else e0
  if q < (2 : ℚ) ^ e1 then e1 - 1 else e1

/-- Round a rational to an integer, ties to even (the IEEE-754 default and
also the rounding of Python float formatting); the fractional part is
compared with one half through the equivalent comparison of twice the
value with twice the floor plus one. -/
def roundHalfEven (x : ℚ) : ℤ :=
  let fl := ⌊x⌋
  if 2 * x < 2 * (fl : ℚ) + 1 then fl
  else if 2 * (fl : ℚ) + 1 < 2 * x then fl + 1
  else if fl % 2 = 0 then fl else fl + 1

def floatRoundPos (q : ℚ) : ℚ :=
  let g : ℚ := (2 : ℚ) ^ (floorLog2 q - 52)
  (roundHalfEven (q / g) : ℚ) * g

/-- Binary64 round-to-nearest-even of an exact rational: the value of the
double nearest to q (53-bit significand, unbounded exponent). -/
def floatRound (q : ℚ) : ℚ :=
  if q = 0 then 0
  else if q < 0 then -floatRoundPos (-q)
  else floatRoundPos q

/-- Double subtraction: the exact difference, correctly rounded. -/
def fsub (a b : ℚ) : ℚ := floatRound (a - b)

/-- Double division: the exact quotient, correctly rounded. -/
def fdiv (a b : ℚ) : ℚ := floatRound (a / b)

/-- The binary64 value of the literal 0.1 of the source. -/
def float_0_1 : ℚ := floatRound (1 / 10)

/-- Length.inches of python-docx: the EMU integer converted to a double and
divided by the double 914400.0. -/
def emu_to_inches (emu : ℤ) : ℚ := fdiv (floatRound (emu : ℚ)) 914400

/-- Two-decimal rendering of a double value, modelling the format specifier
of the margin messages (Python formats the exact value of the double with
round-half-even). -/
def fmt2 (q : ℚ) : String :=
  let n : Int := roundHalfEven (q * 100)
  let m := n.natAbs
  let sign := if n < 0 then "-" else ""
  let frac := m % 100
  sign ++ toString (m / 100) ++ "." ++ (if frac < 10 then "0" else "") ++ toString frac

/-- MemorandumValidator._validate_formatting. -/
def validate_formatting (paras : List String) (sections_list : List Margins) :
    List ValidationIssue :=
  if paras.isEmpty then []
  else
    match sections_list with
    | [] => []
    | s :: _ =>
      let top_margin := emu_to_inches (s.top.getD 0)
      let left_margin := emu_to_inches (s.left.getD 0)
      (if |fsub top_margin 1| > float_0_1 then
        [⟨Severity.INFO, "Formatting",
          "Top margin is " ++ fmt2 top_margin ++ " inches (standard is 1.0 inch)", none⟩]
       else []) ++
      (if |fsub left_margin 1| > float_0_1 then
        [⟨Severity.INFO, "Formatting",
          "Left margin is " ++ fmt2 left_margin ++ " inches (standard is 1.0 inch)", none⟩]
       else [])

/-- The eight checks of validate_file run in source order over a parsed
document, concatenating the issues each appends. -/
def run_checks (doc : Doc) : List ValidationIssue :=
  validate_date doc.paragraphs ++
  validate_memorandum_for doc.paragraphs ++
  validate_from_line doc.paragraphs ++
  validate_subject_line doc.paragraphs ++
  validate_body_paragraphs doc.paragraphs ++
  validate_signature_block doc.paragraphs ++
  validate_attachments doc.paragraphs ++
  validate_formatting doc.paragraphs doc.sections_list

/-- Python str.endswith. -/
def endswith (s suffix : String) : Bool :=
  suffix.toList.isSuffixOf s.toList

/-- MemorandumValidator.validate_file: the main entry point.  The parsed
argument models the outcome of the Document constructor inside the try
block; it is only consulted after the extension test. -/
def validate_file (file_path : String) (parsed : ParseResult) : Bool × List ValidationIssue :=
  if !(endswith file_path ".docx") then
    (false, [⟨Severity.CRITICAL, "File", "File must be a .docx document", none⟩])
  else
    match parsed with
    | ParseResult.fileNotFound =>
      (false, [⟨Severity.CRITICAL, "File", "File not found: " ++ file_path, none⟩])
    | ParseResult.error e =>
      (false, [⟨Severity.CRITICAL, "File", "Error reading file: " ++ e, none⟩])
    | ParseResult.success doc =>
      let issues := run_checks doc
      let critical_issues := issues.filter (fun i => i.severity == Severity.CRITICAL)
      (critical_issues.length == 0, issues)

/-- Expected-number sequence of the body-numbering walk, as the specification
words it: the expected value starts at the given seed and, after every
candidate, is reset to the found number plus one regardless of match. -/
def expectedSeq : List (Nat × Nat) → Nat → List Nat
  | [], _ => []
  | (n, _) :: rest, e => e :: expectedSeq rest (n + 1)

/- ------------------------------------------------------------------ -/
/- Helper lemmas                                                       -/
/- ------------------------------------------------------------------ -/

theorem findFrom_eq_none_iff (m : String → Bool) :
    ∀ (l : List String) (i : Nat), findFrom m l i = none ↔ ∀ p ∈ l, m p = false := by
  intro l
  induction l with
  | nil => intro i; simp [findFrom]
  | cons p rest ih =>
    intro i
    by_cases hp : m p = true
    · simp [findFrom, hp]
    · simp only [Bool.not_eq_true] at hp
      simp [findFrom, hp, ih (i + 1)]

theorem find_none_of_find_zero_none (m : String → Bool) (paras : List String) (s : Nat)
    (h : find_paragraph_index m paras 0 = none) :
    find_paragraph_index m paras s = none := by
  unfold find_paragraph_index at h ⊢
  rw [List.drop_zero] at h
  rw [findFrom_eq_none_iff] at h ⊢
  intro p hp
  exact h p (List.drop_subset s paras hp)

/- ------------------------------------------------------------------ -/
/- Claims                                                              -/
/- ------------------------------------------------------------------ -/

/-- Claim C1: for every validation run that produces a result, the boolean
passed is true exactly when no issue in the returned list has severity
CRITICAL; WARNING and INFO issues never affect the verdict. -/
theorem c1_passed_iff_no_critical (file_path : String) (parsed : ParseResult) :
    (validate_file file_path parsed).1 = true ↔
      ∀ i ∈ (validate_file file_path parsed).2, i.severity ≠ Severity.CRITICAL := by
  unfold validate_file
  cases hx : endswith file_path ".docx" with
  | false => simp
  | true =>
    cases parsed with
    | fileNotFound => simp
    | error e => simp
    | success doc =>
      simp [List.length_eq_zero, List.filter_eq_nil_iff]

/-- Claim C8: for every input path whose name does not end in the docx
extension, the entry point returns failed with exactly one CRITICAL issue
under section File, for every possible parse outcome (so it never consults
the parsed document or any other check). -/
theorem c8_extension_gate (file_path : String) (parsed : ParseResult)
    (h : endswith file_path ".docx" = false) :
    validate_file file_path parsed =
      (false, [⟨Severity.CRITICAL, "File", "File must be a .docx document", none⟩]) := by
  unfold validate_file
  rw [h]
  rfl

theorem c8_extension_gate_witness :
    endswith "memo.txt" ".docx" = false ∧
    validate_file "memo.txt" (ParseResult.success ⟨["12 March 2025"], []⟩) =
      (false, [⟨Severity.CRITICAL, "File", "File must be a .docx document", none⟩]) :=
  ⟨by decide, c8_extension_gate "memo.txt" (ParseResult.success ⟨["12 March 2025"], []⟩) (by decide)⟩

/-- Claim C9: when no SUBJECT anchor is found anywhere in the document, the
body-numbering check emits no issue at all. -/
theorem c9_body_skips_without_subject (paras : List String)
    (h : find_paragraph_index (containsCI "SUBJECT:") paras 0 = none) :
    validate_body_paragraphs paras = [] := by
  unfold validate_body_paragraphs
  rw [h]

theorem c9_body_skips_without_subject_witness :
    find_paragraph_index (containsCI "SUBJECT:") ["hello", "world"] 0 = none ∧
    validate_body_paragraphs ["hello", "world"] = [] :=
  ⟨by decide, c9_body_skips_without_subject ["hello", "world"] (by decide)⟩

/-- Claim C10: a successfully parsed document with zero paragraphs produces
exactly six issues (the Date CRITICAL for the empty document, one CRITICAL
per missing header anchor, the Signature CRITICAL, and the Attachments
INFO), the body and margin checks emit nothing, and passed is false. -/
theorem c10_empty_document (sections_list : List Margins) :
    validate_file "memo.docx" (ParseResult.success ⟨[], sections_list⟩) =
      (false,
       [⟨Severity.CRITICAL, "Date", "Document is empty", none⟩,
        ⟨Severity.CRITICAL, "Header", "Missing \x27MEMORANDUM FOR\x27 line", none⟩,
        ⟨Severity.CRITICAL, "Header", "Missing \x27FROM:\x27 line", none⟩,
        ⟨Severity.CRITICAL, "Header", "Missing \x27SUBJECT:\x27 line", none⟩,
        ⟨Severity.CRITICAL, "Signature", "Missing \x27//SIGNED//\x27 marker in signature block",
         none⟩,
        ⟨Severity.INFO, "Attachments", "No attachments section found (optional)", none⟩])
  ∧ validate_body_paragraphs [] = []
  ∧ validate_formatting [] sections_list = [] :=
  ⟨rfl, rfl, rfl⟩

theorem numberingWalk_eq_filterMap (cands : List (Nat × Nat)) (e : Nat) :
    numberingWalk cands e =
      (cands.zip (expectedSeq cands e)).filterMap
        (fun p => if p.1.1 = p.2 then none else some (numbering_warning p.2 p.1.1 p.1.2)) := by
  induction cands generalizing e with
  | nil => rfl
  | cons hd tl ih =>
    obtain ⟨n, idx⟩ := hd
    by_cases hne : n = e
    · subst hne
      simp [numberingWalk, expectedSeq, List.filterMap_cons, ih]
    · simp [numberingWalk, expectedSeq, List.filterMap_cons, hne, ih]

/-- Claim C2: the body-numbering walk visits candidates in document order
with expected number starting at 1, emits exactly one WARNING (naming the
expected and found numbers) per mismatching candidate, and resets the
expected value to the found number plus one after every candidate; for
candidates numbered 1, 2, 4 between Subject and Signature the check emits
exactly one WARNING (expected 3, found 4) followed by exactly one INFO
reporting count 3. -/
theorem c2_body_numbering_resync :
    (∀ cands : List (Nat × Nat),
       numberingWalk cands 1 =
         (cands.zip (expectedSeq cands 1)).filterMap
           (fun p => if p.1.1 = p.2 then none else some (numbering_warning p.2 p.1.1 p.1.2)))
  ∧ validate_body_paragraphs ["SUBJECT: Test", "1. a", "2. b", "4. c", "//SIGNED//"] =
      [numbering_warning 3 4 3,
       ⟨Severity.INFO, "Body", "Found 3 numbered paragraph(s)", none⟩] :=
  ⟨fun cands => numberingWalk_eq_filterMap cands 1, by decide⟩

/-- Claim C5: in the attachments scan a tab-shaped paragraph is collected
and the scan continues, an empty paragraph is skipped without ending the
scan, and the first non-empty non-tab paragraph terminates the scan; for
the lines Tab 1, empty, Tab 2, Notes, Tab 3 exactly two tabs are collected
and the check emits one INFO reporting count 2. -/
theorem c5_attachment_scan :
    (∀ p rest, tabMatch (strip p).toList = true →
       attachScan (p :: rest) = strip p :: attachScan rest)
  ∧ (∀ p rest, strip p = "" → attachScan (p :: rest) = attachScan rest)
  ∧ (∀ p rest, tabMatch (strip p).toList = false → strip p ≠ "" →
       attachScan (p :: rest) = [])
  ∧ attachScan ["Tab 1", "", "Tab 2", "Notes", "Tab 3"] = ["Tab 1", "Tab 2"]
  ∧ validate_attachments ["Attachments:", "Tab 1", "", "Tab 2", "Notes", "Tab 3"] =
      [⟨Severity.INFO, "Attachments", "Found 2 attachment tab(s)", none⟩] := by
  refine ⟨?_, ?_, ?_, by decide, by decide⟩
  · intro p rest h
    simp only [attachScan]
    rw [h]
    simp
  · intro p rest h
    have htab : tabMatch (strip p).toList = false := by rw [h]; decide
    simp only [attachScan]
    rw [htab, h]
    simp
  · intro p rest htab hne
    simp only [attachScan]
    rw [htab]
    simp [hne]

theorem c5_attachment_scan_witness :
    tabMatch (strip "Tab 7 Overview").toList = true ∧
    attachScan ["Tab 7 Overview"] = [strip "Tab 7 Overview"] :=
  ⟨by decide, c5_attachment_scan.1 "Tab 7 Overview" [] (by decide)⟩

theorem numberingWalk_sections (cands : List (Nat × Nat)) (e : Nat) :
    ∀ i ∈ numberingWalk cands e, i.section_ = "Body" := by
  induction cands generalizing e with
  | nil => simp [numberingWalk]
  | cons hd tl ih =>
    obtain ⟨n, idx⟩ := hd
    intro i hi
    simp only [numberingWalk, List.mem_append] at hi
    rcases hi with hi | hi
    · by_cases hne : n = e
      · simp [hne] at hi
      · simp [hne, numbering_warning] at hi
        rw [hi]
    · exact ih (n + 1) i hi

theorem body_check_core_sections (paras : List String) (si bi : Nat) :
    ∀ i ∈ body_check_core paras si bi, i.section_ = "Body" := by
  intro i hi
  simp only [body_check_core] at hi
  by_cases hfp : (found_paragraphs paras (si + 1) bi).isEmpty
  · rw [if_pos hfp] at hi
    simp at hi
    rw [hi]
  · rw [if_neg hfp] at hi
    rw [List.mem_append] at hi
    rcases hi with hi | hi
    · exact numberingWalk_sections _ 1 i hi
    · simp at hi
      rw [hi]

/-- Claim C7: when the document contains no SIGNED marker, the signature
check emits exactly one CRITICAL under section Signature, and the body
numbering check still runs with the end of the document as its boundary,
every issue it emits being under section Body (so none concerns the
missing marker). -/
theorem c7_missing_signature (paras : List String)
    (h : find_paragraph_index (containsCI "//SIGNED//") paras 0 = none) :
    validate_signature_block paras =
      [⟨Severity.CRITICAL, "Signature",
        "Missing \x27//SIGNED//\x27 marker in signature block", none⟩]
  ∧ (∀ subject_idx, find_paragraph_index (containsCI "SUBJECT:") paras 0 = some subject_idx →
       validate_body_paragraphs paras = body_check_core paras subject_idx paras.length)
  ∧ (∀ i ∈ validate_body_paragraphs paras, i.section_ = "Body") := by
  refine ⟨?_, ?_, ?_⟩
  · unfold validate_signature_block
    rw [h]
  · intro si hsi
    have h2 : find_paragraph_index (containsCI "//SIGNED//") paras si = none :=
      find_none_of_find_zero_none _ _ _ h
    simp only [validate_body_paragraphs, hsi, h2, Option.getD_none]
  · unfold validate_body_paragraphs
    cases hfind : find_paragraph_index (containsCI "SUBJECT:") paras 0 with
    | none => simp
    | some si => exact body_check_core_sections paras si _

theorem c7_missing_signature_witness :
    find_paragraph_index (containsCI "//SIGNED//") ["SUBJECT: T", "1. x"] 0 = none ∧
    validate_signature_block ["SUBJECT: T", "1. x"] =
      [⟨Severity.CRITICAL, "Signature",
        "Missing \x27//SIGNED//\x27 marker in signature block", none⟩] :=
  ⟨by decide, (c7_missing_signature ["SUBJECT: T", "1. x"] (by decide)).1⟩

theorem validate_date_of_ne_nil (paras : List String) (hne : paras ≠ []) :
    validate_date paras = dateLoop (paras.take 5) 0 := by
  cases paras with
  | nil => exact absurd rfl hne
  | cons p rest => rfl

theorem dateLoop_of_all_none (l : List String) (i : Nat)
    (h : ∀ t ∈ l, dateMatch (strip t).toList = none) :
    dateLoop l i =
      [⟨Severity.CRITICAL, "Date",
        "Missing or incorrectly formatted date. Expected format: \x27DD Month YYYY\x27 (e.g., \x2712 March 2025\x27)",
        none⟩] := by
  induction l generalizing i with
  | nil => rfl
  | cons p rest ih =>
    have hp := h p (List.mem_cons_self p rest)
    simp only [dateLoop]
    rw [hp]
    exact ih (i + 1) (fun t ht => h t (List.mem_cons_of_mem p ht))

theorem dateLoop_of_first_hit (l : List String) (k : Nat) (t : String) (d m y : Nat)
    (hk : l[k]? = some t)
    (hbefore : ∀ j, j < k → ∀ u, l[j]? = some u → dateMatch (strip u).toList = none)
    (hmatch : dateMatch (strip t).toList = some (d, m, y)) :
    ∀ i, dateLoop l i =
      if strptime_valid d m y then []
      else [⟨Severity.WARNING, "Date",
        "Date format appears correct but may be invalid: " ++ strip t, some (i + k + 1)⟩] := by
  induction l generalizing k with
  | nil => simp at hk
  | cons p rest ih =>
    intro i
    cases k with
    | zero =>
      rw [List.getElem?_cons_zero] at hk
      injection hk with hk
      subst hk
      simp only [dateLoop]
      rw [hmatch]
    | succ k2 =>
      have hp : dateMatch (strip p).toList = none := hbefore 0 (Nat.succ_pos k2) p (by simp)
      simp only [dateLoop]
      rw [hp]
      have hrec := ih k2 (by simpa using hk)
        (fun j hj u hu => hbefore (j + 1) (Nat.succ_lt_succ hj) u (by simpa using hu)) (i + 1)
      rw [hrec]
      have harith : i + 1 + k2 + 1 = i + (k2 + 1) + 1 := by omega
      rw [harith]

/-- Claim C3: the date check depends only on the first five paragraphs; if
no paragraph in that window has a trimmed line fully matching the date
pattern, it raises exactly one CRITICAL; and for the first matching line
in the window the result is decided there and then (exactly one WARNING
and no CRITICAL when the matched numbers are not a real calendar date, no
issue when they are), independently of later paragraphs. -/
theorem c3_date_check (paras : List String) (hne : paras ≠ []) :
    (∀ paras2, paras2 ≠ [] → paras2.take 5 = paras.take 5 →
       validate_date paras2 = validate_date paras)
  ∧ ((∀ t ∈ paras.take 5, dateMatch (strip t).toList = none) →
       validate_date paras =
         [⟨Severity.CRITICAL, "Date",
           "Missing or incorrectly formatted date. Expected format: \x27DD Month YYYY\x27 (e.g., \x2712 March 2025\x27)",
           none⟩])
  ∧ (∀ k t d m y, (paras.take 5)[k]? = some t →
       (∀ j, j < k → ∀ u, (paras.take 5)[j]? = some u → dateMatch (strip u).toList = none) →
       dateMatch (strip t).toList = some (d, m, y) →
       validate_date paras =
         if strptime_valid d m y then []
         else [⟨Severity.WARNING, "Date",
           "Date format appears correct but may be invalid: " ++ strip t, some (k + 1)⟩]) := by
  refine ⟨?_, ?_, ?_⟩
  · intro paras2 hne2 htake
    rw [validate_date_of_ne_nil paras2 hne2, validate_date_of_ne_nil paras hne, htake]
  · intro hall
    rw [validate_date_of_ne_nil paras hne]
    exact dateLoop_of_all_none _ 0 hall
  · intro k t d m y hk hbefore hmatch
    rw [validate_date_of_ne_nil paras hne]
    have h0 := dateLoop_of_first_hit _ k t d m y hk hbefore hmatch 0
    simpa using h0

theorem c3_date_check_witness :
    (["32 March 2025"] : List String) ≠ [] ∧
    validate_date ["32 March 2025"] =
      [⟨Severity.WARNING, "Date",
        "Date format appears correct but may be invalid: 32 March 2025", some 1⟩] := by
  refine ⟨by decide, ?_⟩
  have h := (c3_date_check ["32 March 2025"] (by decide)).2.2 0 "32 March 2025" 32 3 2025
    (by decide) (fun j hj => absurd hj (Nat.not_lt_zero j)) (by decide)
  rw [h]
  decide

/-- Claim C6 counterexample: in the single-paragraph document
"from: John Smith" the FROM anchor is located (the locator is
case-insensitive) and the anchor is immediately followed by separating
whitespace and non-whitespace content, yet the check raises the WARNING,
because the content test applies a case-sensitive pattern anchored at the
start of the stripped line. -/
theorem c6_counterexample :
    find_paragraph_index (containsCI "FROM:") ["from: John Smith"] 0 = some 0 ∧
    wsDot ((strip "from: John Smith").toList.drop 5) = true ∧
    validate_from_line ["from: John Smith"] =
      [⟨Severity.WARNING, "Header",
        "FROM: line should be followed by sender information", some 1⟩] := by
  decide

/-- Claim C6 amended: for every document in which the FROM (respectively
SUBJECT) anchor is located, the check raises a WARNING exactly when the
located paragraph's trimmed text does not match the case-sensitive
anchored pattern: the exact anchor at the very start of the line, then at
least one whitespace character, then at least one further character; when
the trimmed text does match that pattern, no issue is raised.  (In
particular a located anchor that is mid-line or differently cased draws
the WARNING even when it is followed by content.) -/
theorem c6_header_content_amended (paras : List String) :
    (∀ idx, find_paragraph_index (containsCI "FROM:") paras 0 = some idx →
       validate_from_line paras =
         (if matchAnchorContent "FROM:" (get_text_by_index paras idx) then []
          else [⟨Severity.WARNING, "Header",
            "FROM: line should be followed by sender information", some (idx + 1)⟩]))
  ∧ (∀ idx, find_paragraph_index (containsCI "SUBJECT:") paras 0 = some idx →
       validate_subject_line paras =
         (if matchAnchorContent "SUBJECT:" (get_text_by_index paras idx) then []
          else [⟨Severity.WARNING, "Header",
            "SUBJECT: line should be followed by subject text", some (idx + 1)⟩])) := by
  constructor
  · intro idx h
    simp only [validate_from_line, h]
    by_cases hm : matchAnchorContent "FROM:" (get_text_by_index paras idx) <;> simp [hm]
  · intro idx h
    simp only [validate_subject_line, h]
    by_cases hm : matchAnchorContent "SUBJECT:" (get_text_by_index paras idx) <;> simp [hm]

theorem c6_header_content_amended_witness :
    find_paragraph_index (containsCI "FROM:") ["FROM: AFROTC/CC"] 0 = some 0 ∧
    validate_from_line ["FROM: AFROTC/CC"] = [] := by
  refine ⟨by decide, ?_⟩
  have h := (c6_header_content_amended ["FROM: AFROTC/CC"]).1 0 (by decide)
  rw [h]
  decide

theorem bitlen_nonpos (n : ℤ) (h : n ≤ 0) : bitlen n = 0 := by
  rw [bitlen]
  simp [h]

theorem bitlen_pos (n : ℤ) (h : 0 < n) : bitlen n = bitlen (n / 2) + 1 := by
  rw [bitlen]
  simp [not_le.mpr h]

theorem float_0_1_eq : float_0_1 = (3602879701896397 : ℚ) / 36028797018963968 := by
  norm_num [float_0_1, floatRound, floatRoundPos, floorLog2, roundHalfEven,
    bitlen_pos, bitlen_nonpos]

theorem inches_914400 : emu_to_inches 914400 = 1 := by
  norm_num [emu_to_inches, fdiv, floatRound, floatRoundPos, floorLog2, roundHalfEven,
    bitlen_pos, bitlen_nonpos]

theorem inches_822960 : emu_to_inches 822960 = (8106479329266893 : ℚ) / 9007199254740992 := by
  norm_num [emu_to_inches, fdiv, floatRound, floatRoundPos, floorLog2, roundHalfEven,
    bitlen_pos, bitlen_nonpos]

theorem inches_1005840 : emu_to_inches 1005840 = (2476979795053773 : ℚ) / 2251799813685248 := by
  norm_num [emu_to_inches, fdiv, floatRound, floatRoundPos, floorLog2, roundHalfEven,
    bitlen_pos, bitlen_nonpos]

theorem inches_832104 : emu_to_inches 832104 = (8196551321814303 : ℚ) / 9007199254740992 := by
  norm_num [emu_to_inches, fdiv, floatRound, floatRoundPos, floorLog2, roundHalfEven,
    bitlen_pos, bitlen_nonpos]

theorem inches_813816 : emu_to_inches 813816 = (8016407336719483 : ℚ) / 9007199254740992 := by
  norm_num [emu_to_inches, fdiv, floatRound, floatRoundPos, floorLog2, roundHalfEven,
    bitlen_pos, bitlen_nonpos]

theorem margin_cmp_1 : ¬(|fsub (emu_to_inches 914400) 1| > float_0_1) := by
  rw [inches_914400, float_0_1_eq]
  norm_num [fsub, floatRound]

theorem margin_cmp_822960 : ¬(|fsub (emu_to_inches 822960) 1| > float_0_1) := by
  rw [inches_822960, float_0_1_eq]
  have h : fsub ((8106479329266893 : ℚ) / 9007199254740992) 1 =
      -((900719925474099 : ℚ) / 9007199254740992) := by
    norm_num [fsub, floatRound, floatRoundPos, floorLog2, roundHalfEven,
      bitlen_pos, bitlen_nonpos]
  rw [h]
  norm_num [abs_le]

theorem margin_cmp_1005840 : |fsub (emu_to_inches 1005840) 1| > float_0_1 := by
  rw [inches_1005840, float_0_1_eq]
  have h : fsub ((2476979795053773 : ℚ) / 2251799813685248) 1 =
      (225179981368525 : ℚ) / 2251799813685248 := by
    norm_num [fsub, floatRound, floatRoundPos, floorLog2, roundHalfEven,
      bitlen_pos, bitlen_nonpos]
  rw [h]
  norm_num [lt_abs]

theorem margin_cmp_832104 : ¬(|fsub (emu_to_inches 832104) 1| > float_0_1) := by
  rw [inches_832104, float_0_1_eq]
  have h : fsub ((8196551321814303 : ℚ) / 9007199254740992) 1 =
      -((810647932926689 : ℚ) / 9007199254740992) := by
    norm_num [fsub, floatRound, floatRoundPos, floorLog2, roundHalfEven,
      bitlen_pos, bitlen_nonpos]
  rw [h]
  norm_num [abs_le]

theorem margin_cmp_813816 : |fsub (emu_to_inches 813816) 1| > float_0_1 := by
  rw [inches_813816, float_0_1_eq]
  have h : fsub ((8016407336719483 : ℚ) / 9007199254740992) 1 =
      -((990791918021509 : ℚ) / 9007199254740992) := by
    norm_num [fsub, floatRound, floatRoundPos, floorLog2, roundHalfEven,
      bitlen_pos, bitlen_nonpos]
  rw [h]
  norm_num [lt_abs]

/-- Claim C4 counterexample: a left margin of 822960 EMU is exactly 0.9
inches, deviating from the 1.0-inch standard by exactly 0.1 inches, yet
the margins check raises no issue for it (in the double arithmetic of the
source, 0.9 minus 1.0 has magnitude just below the double 0.1), refuting
the claim that a deviation of exactly 0.1 inch raises an INFO issue. -/
theorem c4_margins_counterexample :
    (822960 : ℚ) / 914400 = 9 / 10 ∧
    |(9 : ℚ) / 10 - 1| = 1 / 10 ∧
    validate_formatting ["text"] [⟨some 914400, none, some 822960, none⟩] = [] := by
  refine ⟨by norm_num, by norm_num, ?_⟩
  simp only [validate_formatting, List.isEmpty_cons, Bool.false_eq_true, if_false,
    Option.getD_some]
  rw [if_neg margin_cmp_1, if_neg margin_cmp_822960]
  rfl

/-- Claim C4 amended: the margins check evaluates only the top and left
margins of the first section, treats an absent value as 0, raises only
INFO issues, and raises an issue for a margin exactly when the double
comparison of the source holds (the absolute binary64 difference between
the margin's inches value and 1.0 exceeds the binary64 value of 0.1).  At
the exact 0.1-inch boundary that comparison is asymmetric in the floats:
a left margin of 0.9 inches (822960 EMU, deviation exactly 0.1) raises no
issue while a top margin of 1.1 inches (1005840 EMU, deviation exactly
0.1) raises one; a deviation of 0.09 inches (margin 0.91) raises none and
a deviation of 0.11 inches (margin 0.89) raises one. -/
theorem c4_margins_amended (paras : List String) (hne : paras ≠ []) :
    (∀ t b l r b2 r2, validate_formatting paras [⟨t, b, l, r⟩] =
        validate_formatting paras [⟨t, b2, l, r2⟩])
  ∧ (∀ b l r, validate_formatting paras [⟨none, b, l, r⟩] =
        validate_formatting paras [⟨some 0, b, l, r⟩])
  ∧ (∀ t b r, validate_formatting paras [⟨t, b, none, r⟩] =
        validate_formatting paras [⟨t, b, some 0, r⟩])
  ∧ (∀ ms, ∀ i ∈ validate_formatting paras ms, i.severity = Severity.INFO)
  ∧ (∀ t l : ℤ, (validate_formatting paras [⟨some t, none, some l, none⟩]).length =
        (if |fsub (emu_to_inches t) 1| > float_0_1 then 1 else 0) +
        (if |fsub (emu_to_inches l) 1| > float_0_1 then 1 else 0))
  ∧ validate_formatting paras [⟨some 914400, none, some 822960, none⟩] = []
  ∧ (validate_formatting paras [⟨some 1005840, none, some 914400, none⟩]).length = 1
  ∧ validate_formatting paras [⟨some 914400, none, some 832104, none⟩] = []
  ∧ (validate_formatting paras [⟨some 914400, none, some 813816, none⟩]).length = 1 := by
  have hp : paras.isEmpty = false := by
    cases paras with
    | nil => exact absurd rfl hne
    | cons a l => rfl
  refine ⟨?_, ?_, ?_, ?_, ?_, ?_, ?_, ?_, ?_⟩
  · intro t b l r b2 r2
    simp only [validate_formatting]
  · intro b l r
    simp only [validate_formatting, Option.getD_none, Option.getD_some]
  · intro t b r
    simp only [validate_formatting, Option.getD_none, Option.getD_some]
  · intro ms i hi
    simp only [validate_formatting] at hi
    rw [hp] at hi
    simp only [Bool.false_eq_true, if_false] at hi
    cases ms with
    | nil => simp at hi
    | cons s rest =>
      rcases List.mem_append.mp hi with hi | hi <;> split at hi <;> simp at hi <;> rw [hi]
  · intro t l
    simp only [validate_formatting, Option.getD_some]
    rw [hp]
    simp only [Bool.false_eq_true, if_false]
    by_cases h1 : |fsub (emu_to_inches t) 1| > float_0_1
    · by_cases h2 : |fsub (emu_to_inches l) 1| > float_0_1
      · simp only [if_pos h1, if_pos h2]; rfl
      · simp only [if_pos h1, if_neg h2]; rfl
    · by_cases h2 : |fsub (emu_to_inches l) 1| > float_0_1
      · simp only [if_neg h1, if_pos h2]; rfl
      · simp only [if_neg h1, if_neg h2]; rfl
  · simp only [validate_formatting, Option.getD_some]
    rw [hp]
    simp only [Bool.false_eq_true, if_false]
    rw [if_neg margin_cmp_1, if_neg margin_cmp_822960]
    rfl
  · simp only [validate_formatting, Option.getD_some]
    rw [hp]
    simp only [Bool.false_eq_true, if_false]
    rw [if_pos margin_cmp_1005840, if_neg margin_cmp_1]
    rfl
  · simp only [validate_formatting, Option.getD_some]
    rw [hp]
    simp only [Bool.false_eq_true, if_false]
    rw [if_neg margin_cmp_1, if_neg margin_cmp_832104]
    rfl
  · simp only [validate_formatting, Option.getD_some]
    rw [hp]
    simp only [Bool.false_eq_true, if_false]
    rw [if_neg margin_cmp_1, if_pos margin_cmp_813816]
    rfl

theorem c4_margins_amended_witness :
    (["text"] : List String) ≠ [] ∧
    (validate_formatting ["text"] [⟨some 914400, none, some 813816, none⟩]).length = 1 :=
  ⟨by simp, (c4_margins_amended ["text"] (by simp)).2.2.2.2.2.2.2.2⟩

end MemoValidator
